import Mathlib

/-!
Verification of the spectrum-path resolution and precursor-extraction core of
CompOmics/ms2rescore, shallowly embedded from `ms2rescore/utils.py` and (for the
`parse_spectra` module, whose source is not in the tree) from the design
specification.  Filesystem access (`os.path.isdir`, `os.path.isfile`, `glob`,
`Path.glob`) and the external reader predicate `is_supported_file_type` are
abstracted as an explicit environment `FS`.
-/

/-- Abstract filesystem and external-reader environment.
`glob pat` models `glob.glob(pat)`; `pathGlob dir pat` models
`Path(dir).glob(pat)`; `isSupported` models `ms2rescore_rs.is_supported_file_type`. -/
structure FS where
  isFile : String → Bool
  isDir : String → Bool
  glob : String → List String
  pathGlob : String → String → List String
  isSupported : String → Bool

/-- Models `os.path.exists`. -/
def FS.pathExists (fs : FS) (p : String) : Bool :=
  fs.isFile p || fs.isDir p

/-- A `Union[str, Path]` argument: Python distinguishes the two at runtime
(`str` has an `endswith` method, `pathlib.Path` does not; a `Path` object is
always truthy while `""` is falsy). -/
inductive PyPath where
  | pyStr (s : String)
  | pyPath (s : String)
deriving DecidableEq, Repr

/-- Errors that `infer_spectrum_path` can raise: `MS2RescoreConfigurationError`,
or Python's `AttributeError` when `.endswith` is called on a `Path` object. -/
inductive InferError where
  | configurationError (msg : String)
  | attributeError (msg : String)
deriving DecidableEq, Repr

def noPathNoRunMsg : String :=
  "Could not resolve spectrum file name: No spectrum path configured and no run name in PSM file found."

def dirNoRunMsg : String :=
  "Could not resolve spectrum file name: Spectrum path is directory but no run name in PSM file found."

def notExistingMsg : String :=
  "Configured spectrum_path must be None or a path to an existing file or directory. If None or path to directory, spectrum run information should be present in the PSM file."

/-- Message of the final `MS2RescoreConfigurationError`; it interpolates the
unresolved candidate path, as the f-string in the source does. -/
def unsupportedMsg (resolved : String) : String :=
  "Resolved spectrum filename (" ++ resolved ++
    ") does not contain a supported file extension (mzML, MGF, or .d) and could not find any matching existing files."

/-- The `logger.warning` message emitted on a stem mismatch. -/
def stemMismatchWarning (cp rn : String) : String :=
  "Passed spectrum path (" ++ cp ++ ") does not match run name found in PSM file (" ++
    rn ++ "). Continuing with passed spectrum path."

def pathAttrMsg : String :=
  "PosixPath object has no attribute endswith"

/-- Models `str.startswith` on the underlying character list (structurally
recursive, hence kernel-reducible). -/
def strStartsWith (s pre : String) : Bool :=
  pre.toList.isPrefixOf s.toList

/-- Models `str.endswith` on the underlying character list. -/
def strEndsWith (s post : String) : Bool :=
  post.toList.isSuffixOf s.toList

/-- Models `os.path.join a b` for the cases exercised here: an absolute second
component replaces the first, an empty first component is dropped, otherwise the
components are joined with a single separator. -/
def joinPath (a b : String) : String :=
  if strStartsWith b "/" then b
  else if a == "" then b
  else if strEndsWith a "/" then a ++ b
  else a ++ "/" ++ b

/-- Index of the last `.` in a character list, if any. -/
def lastDotIndex (cs : List Char) : Option Nat :=
  ((List.range cs.length).filter (fun i => cs.getD i ' ' == '.')).getLast?

/-- Models `pathlib.Path(p).name`: the final non-empty, non-`.` path component
(`..` components are not special-cased, none occur here). -/
def pathName (p : String) : String :=
  String.mk (((p.toList.splitOnP (fun c => c == '/')).filter
    (fun comp => !comp.isEmpty && comp != ['.'])).getLastD [])

/-- Models `pathlib.Path(p).stem`: the name with its last suffix removed, where
a suffix is a final `.`-segment whose dot is neither first nor last character. -/
def pathStem (p : String) : String :=
  let name := pathName p
  let cs := name.toList
  match lastDotIndex cs with
  | some i => if 0 < i && i + 1 < cs.length then String.mk (cs.take i) else name
  | none => name

/-- Models `_is_minitdf` from `ms2rescore/utils.py`: the union (a Python `set`)
of the matches of the two glob patterns must have at least two elements. -/
def is_minitdf (fs : FS) (spectrum_file : String) : Bool :=
  let files :=
    (fs.pathGlob spectrum_file "*ms2spectrum.bin" ++
      fs.pathGlob spectrum_file "*ms2spectrum.parquet").dedup
  decide (2 ≤ files.length)

/-- The `if not configured_path` branch of `infer_spectrum_path`: resolve from
the run name in the current default directory, or fail. -/
def resolveNoPath (run_name : Option String) : Except InferError (String × List String) :=
  match run_name with
  | some rn =>
    if rn != "" then .ok (joinPath "." rn, [])
    else .error (.configurationError noPathNoRunMsg)
  | none => .error (.configurationError noPathNoRunMsg)

/-- The `else` branch of `infer_spectrum_path` for a (truthy) `str` argument:
classify as Bruker, then direct to the directory, file/bundle, or error case.
The returned list collects the `logger.warning` messages emitted. -/
def resolveStrPath (fs : FS) (cp : String) (run_name : Option String) :
    Except InferError (String × List String) :=
  let is_bruker_dir := strEndsWith cp ".d" || is_minitdf fs cp
  if fs.isDir cp && !is_bruker_dir then
    match run_name with
    | some rn =>
      if rn != "" then .ok (joinPath cp rn, [])
      else .error (.configurationError dirNoRunMsg)
    | none => .error (.configurationError dirNoRunMsg)
  else if fs.isFile cp || (fs.isDir cp && is_bruker_dir) then
    match run_name with
    | some rn =>
      if rn != "" && pathStem cp != pathStem rn then
        .ok (cp, [stemMismatchWarning cp rn])
      else .ok (cp, [])
    | none => .ok (cp, [])
  else .error (.configurationError notExistingMsg)

/-- Candidate-resolution phase of `infer_spectrum_path` (everything before the
extension-matching block).  `none` and `pyStr ""` are falsy and take the
no-path branch; a `pyPath` object is truthy and immediately hits
`configured_path.endswith(".d")`, which raises `AttributeError` because
`pathlib.Path` has no `endswith` method. -/
def resolve_candidate (fs : FS) (configured_path : Option PyPath)
    (run_name : Option String) : Except InferError (String × List String) :=
  match configured_path with
  | none => resolveNoPath run_name
  | some (.pyStr s) => if s == "" then resolveNoPath run_name else resolveStrPath fs s run_name
  | some (.pyPath _) => .error (.attributeError pathAttrMsg)

/-- Extension-matching phase of `infer_spectrum_path`: if the candidate is not
already a supported existing path, take the first supported match of
`glob(candidate + "*")`, else raise naming the candidate. -/
def match_extension (fs : FS) (resolved : String) : Except InferError String :=
  if !fs.isSupported resolved || !fs.pathExists resolved then
    match (fs.glob (resolved ++ "*")).find? fs.isSupported with
    | some filename => .ok filename
    | none => .error (.configurationError (unsupportedMsg resolved))
  else .ok resolved

/-- Models `infer_spectrum_path` from `ms2rescore/utils.py`.  The result pairs
the returned path with the list of warnings logged along the way. -/
def infer_spectrum_path (fs : FS) (configured_path : Option PyPath)
    (run_name : Option String) : Except InferError (String × List String) :=
  match resolve_candidate fs configured_path run_name with
  | .error e => .error e
  | .ok (resolved, warnings) =>
    match match_extension fs resolved with
    | .error e => .error e
    | .ok final => .ok (final, warnings)

/-!
Model of the `parse_spectra` module.  Its source file is not in the tree (only
its tests are), so the definitions below are modelled from the specification,
§4.3 (PrecursorExtractor) and §4.4 (CapabilityOrchestrator).  Numeric precursor
values are represented as rationals; the ion-mobility sentinel is `0`.
-/

/-- Modelled from the spec: the closed enumeration `MSDataType` of metadata
categories (§3), from the missing `parse_spectra` module. -/
inductive MSDataType where
  | retention_time
  | ion_mobility
  | precursor_mz
  | ms2_spectra
deriving DecidableEq, Repr

/-- Modelled from the spec: a PSM record with the fields relevant here (§3),
from the external identification-data library used by `parse_spectra`. -/
structure PSM where
  run : String
  spectrum_id : String
  retention_time : Option ℚ
  ion_mobility : Option ℚ
  precursor_mz : Option ℚ
deriving DecidableEq, Repr

/-- Modelled from the spec: the `(mz, rt, im)` record produced by the external
reader per spectrum identifier (§3). -/
structure PrecursorRecord where
  mz : ℚ
  rt : ℚ
  im : ℚ
deriving DecidableEq, Repr

/-- Modelled from the spec: the two `SpectrumParsingError` conditions (§7):
spectrum path required but absent, or a PSM referencing a spectrum identifier
absent from the source. -/
inductive SpectrumParsingError where
  | missingSpectrumPath
  | missingSpectrumId (spectrum_id : String) (run : String)
deriving DecidableEq, Repr

/-- Modelled from the spec: `_get_precursor_values` (§4.3), from the missing
`parse_spectra` module.  `info run spectrum_id` abstracts the composition of
path resolution and the external reader: the per-run
`spectrum_id -> PrecursorRecord` map.  Any PSM whose identifier is absent from
its run's map raises `SpectrumParsingError` naming identifier and run, with no
partial arrays; on success the three arrays follow `psm_list` order. -/
def get_precursor_values (info : String → String → Option PrecursorRecord) :
    List PSM → Except SpectrumParsingError (List ℚ × List ℚ × List ℚ)
  | [] => .ok ([], [], [])
  | psm :: rest =>
    match info psm.run psm.spectrum_id with
    | none => .error (.missingSpectrumId psm.spectrum_id psm.run)
    | some r =>
      match get_precursor_values info rest with
      | .error e => .error e
      | .ok (mzs, rts, ims) => .ok (r.mz :: mzs, r.rt :: rts, r.im :: ims)

/-- Modelled from the spec: step 1 of `add_precursor_values` (§4.4): a category
is already available only if every PSM has a non-null value for it, and for ion
mobility also a non-sentinel one. -/
def already_available (psms : List PSM) : Finset MSDataType :=
  (if psms.all (fun p => p.retention_time.isSome) then {MSDataType.retention_time} else ∅) ∪
    (if psms.all (fun p => p.ion_mobility.isSome && decide (p.ion_mobility ≠ some 0)) then
      {MSDataType.ion_mobility} else ∅) ∪
    (if psms.all (fun p => p.precursor_mz.isSome) then {MSDataType.precursor_mz} else ∅)

/-- Modelled from the spec: step 5 of `add_precursor_values` (§4.4): write the
extracted `mz`, `rt`, `im` onto each PSM at its positional index. -/
def apply_values : List PSM → List ℚ → List ℚ → List ℚ → List PSM
  | p :: ps, mz :: mzs, rt :: rts, im :: ims =>
    { p with precursor_mz := some mz, retention_time := some rt, ion_mobility := some im } ::
      apply_values ps mzs rts ims
  | ps, _, _, _ => ps

/-- Modelled from the spec: `add_precursor_values` (§4.4 CapabilityOrchestrator),
from the missing `parse_spectra` module.  Returns the enriched PSM list (the
source mutates in place) together with the set of available categories.
Steps: compute `already_available`; add `ms2_spectra` iff a spectrum path was
supplied; return early when the required set is covered; otherwise require the
spectrum path, extract, apply positionally, and post-check the ion-mobility
sentinel: all-sentinel extractions null the field and drop the category. -/
def add_precursor_values (info : String → String → Option PrecursorRecord)
    (psms : List PSM) (required : Finset MSDataType) (spectrum_path : Option String) :
    Except SpectrumParsingError (List PSM × Finset MSDataType) :=
  let available := already_available psms
  let ms2 : Finset MSDataType :=
    if spectrum_path.isSome then {MSDataType.ms2_spectra} else ∅
  if required ⊆ available then .ok (psms, available ∪ ms2)
  else
    match spectrum_path with
    | none => .error .missingSpectrumPath
    | some _ =>
      match get_precursor_values info psms with
      | .error e => .error e
      | .ok (mzs, rts, ims) =>
        let enriched := apply_values psms mzs rts ims
        if ims.all (fun x => decide (x = 0)) then
          .ok (enriched.map (fun p => { p with ion_mobility := none }),
            {MSDataType.retention_time, MSDataType.precursor_mz} ∪ ms2)
        else
          .ok (enriched,
            {MSDataType.retention_time, MSDataType.precursor_mz, MSDataType.ion_mobility} ∪ ms2)

/-!
Concrete environments used to instantiate the theorems, mirroring the layouts
described by the testable properties of the specification.
-/

/-- An empty filesystem: nothing exists, no glob matches, nothing supported. -/
def fsEmpty : FS :=
  { isFile := fun _ => false
    isDir := fun _ => false
    glob := fun _ => []
    pathGlob := fun _ _ => []
    isSupported := fun _ => false }

/-- Directory `b` holding one file matching each of the two bundle patterns. -/
def fsOneEach : FS :=
  { fsEmpty with
    pathGlob := fun d pat =>
      if d == "b" && pat == "*ms2spectrum.bin" then ["b/a.ms2spectrum.bin"]
      else if d == "b" && pat == "*ms2spectrum.parquet" then ["b/a.ms2spectrum.parquet"]
      else [] }

/-- Directory `b` holding a single file matching only the binary pattern. -/
def fsOneTotal : FS :=
  { fsEmpty with
    pathGlob := fun d pat =>
      if d == "b" && pat == "*ms2spectrum.bin" then ["b/a.ms2spectrum.bin"] else [] }

/-- Directory `b` holding two files that both match the binary pattern. -/
def fsTwoSame : FS :=
  { fsEmpty with
    pathGlob := fun d pat =>
      if d == "b" && pat == "*ms2spectrum.bin" then
        ["b/a.ms2spectrum.bin", "b/c.ms2spectrum.bin"]
      else [] }

/-- Claim C5: `_is_minitdf` classifies a directory as a bundle exactly when the
union of the matches of the two glob patterns totals at least two files; one
file per pattern is a bundle, a single matching file is not, and two matches of
the same pattern also classify as a bundle. -/
theorem is_minitdf_cardinality (fs : FS) (d : String) :
    (is_minitdf fs d = true ↔
      2 ≤ ((fs.pathGlob d "*ms2spectrum.bin" ++
        fs.pathGlob d "*ms2spectrum.parquet").dedup).length) ∧
    is_minitdf fsOneEach "b" = true ∧
    is_minitdf fsOneTotal "b" = false ∧
    is_minitdf fsTwoSame "b" = true := by
  refine ⟨?_, rfl, rfl, rfl⟩
  simp [is_minitdf]

/-- Claim C9: passing a non-empty `pathlib.Path` object as `configured_path`
always raises `AttributeError` at the `endswith` bundle-extension check, so no
`ConfigurationError` branch and no resolution logic is ever reached. -/
theorem infer_spectrum_path_pyPath_attributeError (fs : FS) (s : String)
    (rn : Option String) (_hs : s ≠ "") :
    infer_spectrum_path fs (some (.pyPath s)) rn = .error (.attributeError pathAttrMsg) := rfl

/-- Witness for C9 at a concrete Path-typed input. -/
theorem infer_spectrum_path_pyPath_attributeError_witness :
    "sample.mzML" ≠ "" ∧
      infer_spectrum_path fsEmpty (some (.pyPath "sample.mzML")) none =
        .error (.attributeError pathAttrMsg) :=
  ⟨by decide, infer_spectrum_path_pyPath_attributeError fsEmpty "sample.mzML" none (by decide)⟩

/-- Claim C10: an empty-string `configured_path` is falsy, so it behaves exactly
like an absent one: the same result for every run name, and the same
`ConfigurationError` when the run name is absent too. -/
theorem infer_spectrum_path_empty_string_as_none (fs : FS) (rn : Option String) :
    infer_spectrum_path fs (some (.pyStr "")) rn = infer_spectrum_path fs none rn ∧
    infer_spectrum_path fs (some (.pyStr "")) none =
      .error (.configurationError noPathNoRunMsg) :=
  ⟨rfl, rfl⟩

/-- Claim C3: with neither a configured path nor a run name,
`infer_spectrum_path` raises `ConfigurationError`; with no configured path but a
run name present, the candidate is the run name joined under the current
default directory. -/
theorem infer_spectrum_path_no_path (fs : FS) (rn : String) (hrn : rn ≠ "") :
    infer_spectrum_path fs none none = .error (.configurationError noPathNoRunMsg) ∧
    resolve_candidate fs none (some rn) = .ok (joinPath "." rn, []) := by
  refine ⟨rfl, ?_⟩
  show resolveNoPath (some rn) = .ok (joinPath "." rn, [])
  simp [resolveNoPath, hrn]

/-- Witness for C3 at a concrete run name. -/
theorem infer_spectrum_path_no_path_witness :
    "run1" ≠ "" ∧
      (infer_spectrum_path fsEmpty none none =
          .error (.configurationError noPathNoRunMsg) ∧
        resolve_candidate fsEmpty none (some "run1") = .ok (joinPath "." "run1", [])) :=
  ⟨by decide, infer_spectrum_path_no_path fsEmpty "run1" (by decide)⟩

/-- A filesystem holding an existing Bruker `.d` bundle directory `sample.d`,
with `.d` paths supported by the external reader. -/
def fsBundle : FS :=
  { fsEmpty with
    isDir := fun q => q == "sample.d"
    isSupported := fun q => strEndsWith q ".d" }

/-- Claim C8: for an existing directory with the instrument-bundle `.d`
extension that the reader supports, `infer_spectrum_path` succeeds without any
run name and returns the configured path itself, with no warnings; in
particular for `sample.d`. -/
theorem infer_spectrum_path_bundle_no_run (fs : FS) (p : String)
    (hd : strEndsWith p ".d" = true) (hdir : fs.isDir p = true)
    (hsup : fs.isSupported p = true) (hne : p ≠ "") :
    infer_spectrum_path fs (some (.pyStr p)) none = .ok (p, []) ∧
    infer_spectrum_path fsBundle (some (.pyStr "sample.d")) none =
      .ok ("sample.d", []) := by
  constructor
  · simp [infer_spectrum_path, resolve_candidate, resolveStrPath, match_extension,
      FS.pathExists, hne, hd, hdir, hsup]
  · rfl

/-- Witness for C8 at the concrete bundle `sample.d`. -/
theorem infer_spectrum_path_bundle_no_run_witness :
    (strEndsWith "sample.d" ".d" = true ∧ fsBundle.isDir "sample.d" = true ∧
      fsBundle.isSupported "sample.d" = true ∧ "sample.d" ≠ "") ∧
    (infer_spectrum_path fsBundle (some (.pyStr "sample.d")) none =
        .ok ("sample.d", []) ∧
      infer_spectrum_path fsBundle (some (.pyStr "sample.d")) none =
        .ok ("sample.d", [])) :=
  ⟨⟨by decide, by decide, by decide, by decide⟩,
    infer_spectrum_path_bundle_no_run fsBundle "sample.d" (by decide) (by decide)
      (by decide) (by decide)⟩

/-- A filesystem holding a single existing file `other.mgf`. -/
def fsWarnFile : FS :=
  { fsEmpty with isFile := fun q => q == "other.mgf" }

/-- Claim C6: when the configured path is an existing file (or an existing
bundle directory) and a run name with a different filename stem is present,
candidate resolution does not fail: it emits exactly the stem-mismatch warning
and keeps the configured path unchanged as the candidate. -/
theorem resolve_candidate_stem_mismatch_warning (fs : FS) (cp rn : String)
    (hne : cp ≠ "")
    (hkind : fs.isFile cp = true ∨
      (fs.isDir cp = true ∧ (strEndsWith cp ".d" || is_minitdf fs cp) = true))
    (hnotboth : ¬(fs.isFile cp = true ∧ fs.isDir cp = true))
    (hrn : rn ≠ "") (hstem : pathStem cp ≠ pathStem rn) :
    resolve_candidate fs (some (.pyStr cp)) (some rn) =
      .ok (cp, [stemMismatchWarning cp rn]) := by
  rcases hkind with hf | ⟨hd2, hb⟩
  · have hdf : fs.isDir cp = false := by
      cases h : fs.isDir cp
      · rfl
      · exact absurd ⟨hf, h⟩ hnotboth
    simp [resolve_candidate, resolveStrPath, hne, hf, hdf, hrn, hstem]
  · simp [resolve_candidate, resolveStrPath, hne, hd2, hb, hrn, hstem]

/-- Witness for C6: existing file `other.mgf` with expected run name `run1`. -/
theorem resolve_candidate_stem_mismatch_warning_witness :
    ("other.mgf" ≠ "" ∧
      (fsWarnFile.isFile "other.mgf" = true ∨
        (fsWarnFile.isDir "other.mgf" = true ∧
          (strEndsWith "other.mgf" ".d" || is_minitdf fsWarnFile "other.mgf") = true)) ∧
      ¬(fsWarnFile.isFile "other.mgf" = true ∧ fsWarnFile.isDir "other.mgf" = true) ∧
      "run1" ≠ "" ∧ pathStem "other.mgf" ≠ pathStem "run1") ∧
    resolve_candidate fsWarnFile (some (.pyStr "other.mgf")) (some "run1") =
      .ok ("other.mgf", [stemMismatchWarning "other.mgf" "run1"]) :=
  ⟨⟨by decide, Or.inl (by decide), by decide, by decide, by decide⟩,
    resolve_candidate_stem_mismatch_warning fsWarnFile "other.mgf" "run1" (by decide)
      (Or.inl (by decide)) (by decide) (by decide) (by decide)⟩

/-- A filesystem with plain directory `dir` holding the spectrum file
`dir/run1.mzML`, supported by extension. -/
def fsDirRun : FS :=
  { fsEmpty with
    isDir := fun q => q == "dir"
    isFile := fun q => q == "dir/run1.mzML"
    glob := fun pat => if pat == "dir/run1*" then ["dir/run1.mzML"] else []
    isSupported := fun q => strEndsWith q ".mzML" }

/-- Claim C4: for an existing plain (non-bundle) directory, a run name is
required (ConfigurationError otherwise); with a run name, any successful
resolution yields a supported path extending `directory ⧸ run_name`; in
particular `infer_spectrum_path "dir" "run1"` with `dir/run1.mzML` existing
returns that path.  The glob hypothesis states that `glob(c + "*")` only
returns extensions of `c`. -/
theorem infer_spectrum_path_plain_directory (fs : FS) (dir rn : String)
    (hne : dir ≠ "") (hdir : fs.isDir dir = true)
    (hbr : (strEndsWith dir ".d" || is_minitdf fs dir) = false)
    (hrn : rn ≠ "")
    (hglob : ∀ f ∈ fs.glob (joinPath dir rn ++ "*"), ∃ t, f = joinPath dir rn ++ t) :
    infer_spectrum_path fs (some (.pyStr dir)) none =
        .error (.configurationError dirNoRunMsg) ∧
    (∀ p ws, infer_spectrum_path fs (some (.pyStr dir)) (some rn) = .ok (p, ws) →
      fs.isSupported p = true ∧ ∃ t, p = joinPath dir rn ++ t) ∧
    infer_spectrum_path fsDirRun (some (.pyStr "dir")) (some "run1") =
      .ok ("dir/run1.mzML", []) := by
  refine ⟨?_, ?_, rfl⟩
  · simp [infer_spectrum_path, resolve_candidate, resolveStrPath, hne, hdir, hbr]
  · intro p ws h
    have hres : resolve_candidate fs (some (.pyStr dir)) (some rn) =
        .ok (joinPath dir rn, []) := by
      simp [resolve_candidate, resolveStrPath, hne, hdir, hbr, hrn]
    unfold infer_spectrum_path at h
    rw [hres] at h
    dsimp only at h
    cases hm : match_extension fs (joinPath dir rn) with
    | error e => rw [hm] at h; exact absurd h (by simp)
    | ok q =>
      rw [hm] at h
      simp only [Except.ok.injEq, Prod.mk.injEq] at h
      obtain ⟨hqp, -⟩ := h
      subst hqp
      unfold match_extension at hm
      split at hm
      · cases hfind : (fs.glob (joinPath dir rn ++ "*")).find? fs.isSupported with
        | none => rw [hfind] at hm; exact absurd hm (by simp)
        | some f =>
          rw [hfind] at hm
          simp only [Except.ok.injEq] at hm
          subst hm
          exact ⟨List.find?_some hfind,
            hglob f (List.mem_of_find?_eq_some hfind)⟩
      · simp only [Except.ok.injEq] at hm
        subst hm
        rename_i hcond
        simp only [Bool.or_eq_true, Bool.not_eq_true'] at hcond
        push_neg at hcond
        exact ⟨Bool.ne_false_iff.mp hcond.1, "", (String.append_empty _).symm⟩

/-- Witness for C4 at the concrete directory layout `dir/run1.mzML`. -/
theorem infer_spectrum_path_plain_directory_witness :
    ("dir" ≠ "" ∧ fsDirRun.isDir "dir" = true ∧
      (strEndsWith "dir" ".d" || is_minitdf fsDirRun "dir") = false ∧ "run1" ≠ "" ∧
      ∀ f ∈ fsDirRun.glob (joinPath "dir" "run1" ++ "*"),
        ∃ t, f = joinPath "dir" "run1" ++ t) ∧
    infer_spectrum_path fsDirRun (some (.pyStr "dir")) (some "run1") =
      .ok ("dir/run1.mzML", []) := by
  have hg : ∀ f ∈ fsDirRun.glob (joinPath "dir" "run1" ++ "*"),
      ∃ t, f = joinPath "dir" "run1" ++ t := by
    intro f hf
    have hf' : f ∈ ["dir/run1.mzML"] := hf
    have heq : f = "dir/run1.mzML" := List.mem_singleton.mp hf'
    exact ⟨".mzML", by rw [heq]; rfl⟩
  exact ⟨⟨by decide, by decide, by decide, by decide, hg⟩,
    (infer_spectrum_path_plain_directory fsDirRun "dir" "run1" (by decide) (by decide)
      (by decide) (by decide) hg).2.2⟩

/-- Claim C7: whenever the resolved candidate does not already satisfy both the
supported-extension predicate and existence, `infer_spectrum_path` globs
`candidate*` and returns the first supported match; if no match is supported it
raises a `ConfigurationError` whose message names the unresolved candidate. -/
theorem infer_spectrum_path_glob_fallback (fs : FS) (cp : Option PyPath)
    (rn : Option String) (cand : String) (ws : List String)
    (hres : resolve_candidate fs cp rn = .ok (cand, ws))
    (hnot : (fs.isSupported cand && fs.pathExists cand) = false) :
    (∀ f, (fs.glob (cand ++ "*")).find? fs.isSupported = some f →
      infer_spectrum_path fs cp rn = .ok (f, ws)) ∧
    ((fs.glob (cand ++ "*")).find? fs.isSupported = none →
      infer_spectrum_path fs cp rn =
          .error (.configurationError (unsupportedMsg cand)) ∧
        unsupportedMsg cand =
          "Resolved spectrum filename (" ++ cand ++
            ") does not contain a supported file extension (mzML, MGF, or .d) and could not find any matching existing files.") := by
  have hcond : (!fs.isSupported cand || !fs.pathExists cand) = true := by
    rw [← Bool.not_and, hnot]; rfl
  constructor
  · intro f hf
    unfold infer_spectrum_path
    rw [hres]
    dsimp only
    unfold match_extension
    rw [if_pos hcond, hf]
  · intro hf
    refine ⟨?_, rfl⟩
    unfold infer_spectrum_path
    rw [hres]
    dsimp only
    unfold match_extension
    rw [if_pos hcond, hf]

/-- Witness for C7 on the empty filesystem: the candidate `./run1` resolves to
no supported match, so resolution fails naming the candidate. -/
theorem infer_spectrum_path_glob_fallback_witness :
    (resolve_candidate fsEmpty none (some "run1") = .ok (joinPath "." "run1", []) ∧
      (fsEmpty.isSupported (joinPath "." "run1") &&
        fsEmpty.pathExists (joinPath "." "run1")) = false) ∧
    ((∀ f, (fsEmpty.glob (joinPath "." "run1" ++ "*")).find? fsEmpty.isSupported = some f →
        infer_spectrum_path fsEmpty none (some "run1") = .ok (f, [])) ∧
      ((fsEmpty.glob (joinPath "." "run1" ++ "*")).find? fsEmpty.isSupported = none →
        infer_spectrum_path fsEmpty none (some "run1") =
            .error (.configurationError (unsupportedMsg (joinPath "." "run1"))) ∧
          unsupportedMsg (joinPath "." "run1") =
            "Resolved spectrum filename (" ++ joinPath "." "run1" ++
              ") does not contain a supported file extension (mzML, MGF, or .d) and could not find any matching existing files.")) :=
  ⟨⟨rfl, rfl⟩,
    infer_spectrum_path_glob_fallback fsEmpty none (some "run1") (joinPath "." "run1") []
      rfl rfl⟩

/-- On success, extraction returns arrays length-aligned with the PSM list. -/
lemma get_precursor_values_lengths (info : String → String → Option PrecursorRecord) :
    ∀ psms mzs rts ims, get_precursor_values info psms = .ok (mzs, rts, ims) →
      mzs.length = psms.length ∧ rts.length = psms.length ∧ ims.length = psms.length := by
  intro psms
  induction psms with
  | nil =>
    intro mzs rts ims h
    simp only [get_precursor_values, Except.ok.injEq, Prod.mk.injEq] at h
    obtain ⟨h1, h2, h3⟩ := h
    simp [← h1, ← h2, ← h3]
  | cons a rest ih =>
    intro mzs rts ims h
    unfold get_precursor_values at h
    cases hi : info a.run a.spectrum_id with
    | none => rw [hi] at h; exact absurd h (by simp)
    | some r =>
      rw [hi] at h
      cases hr : get_precursor_values info rest with
      | error e => rw [hr] at h; exact absurd h (by simp)
      | ok triple =>
        obtain ⟨mzs', rts', ims'⟩ := triple
        rw [hr] at h
        simp only [Except.ok.injEq, Prod.mk.injEq] at h
        obtain ⟨h1, h2, h3⟩ := h
        obtain ⟨l1, l2, l3⟩ := ih mzs' rts' ims' hr
        simp [← h1, ← h2, ← h3, l1, l2, l3]

/-- Applying length-aligned extracted values writes exactly those ion-mobility
values, in order, onto the PSM list. -/
lemma apply_values_ion_mobility :
    ∀ (psms : List PSM) (mzs rts ims : List ℚ),
      mzs.length = psms.length → rts.length = psms.length → ims.length = psms.length →
      (apply_values psms mzs rts ims).map (fun p => p.ion_mobility) = ims.map some := by
  intro psms
  induction psms with
  | nil =>
    intro mzs rts ims _ _ h3
    rw [List.length_nil, List.length_eq_zero] at h3
    subst h3
    cases mzs <;> cases rts <;> rfl
  | cons a rest ih =>
    intro mzs rts ims h1 h2 h3
    cases mzs with
    | nil => simp at h1
    | cons mz mzs' =>
      cases rts with
      | nil => simp at h2
      | cons rt rts' =>
        cases ims with
        | nil => simp at h3
        | cons im ims' =>
          simp only [List.length_cons, Nat.succ.injEq] at h1 h2 h3
          simp only [apply_values, List.map_cons, List.cons.injEq]
          exact ⟨trivial, ih mzs' rts' ims' h1 h2 h3⟩

/-- The PSM list of the test fixture: two PSMs of `run1` with no metadata. -/
def psmsTest : List PSM :=
  [⟨"run1", "spectrum1", none, none, none⟩, ⟨"run1", "spectrum2", none, none, none⟩]

/-- A precursor map containing only `spectrum1`. -/
def infoIncomplete : String → String → Option PrecursorRecord :=
  fun _ sid => if sid == "spectrum1" then some ⟨529, 10, 1⟩ else none

/-- Claim C2: extraction is fail-fast: whenever some PSM's spectrum identifier
is absent from its run's precursor map, `_get_precursor_values` raises
`SpectrumParsingError` and returns no arrays at all; in particular for PSMs
`[spectrum1, spectrum2]` with a map holding only `spectrum1`. -/
theorem get_precursor_values_fail_fast (info : String → String → Option PrecursorRecord)
    (psms : List PSM)
    (hmiss : ∃ psm ∈ psms, info psm.run psm.spectrum_id = none) :
    (∃ e, get_precursor_values info psms = .error e) ∧
    get_precursor_values infoIncomplete psmsTest =
      .error (.missingSpectrumId "spectrum2" "run1") := by
  refine ⟨?_, rfl⟩
  induction psms with
  | nil =>
    obtain ⟨p, hp, -⟩ := hmiss
    cases hp
  | cons a rest ih =>
    cases hi : info a.run a.spectrum_id with
    | none => exact ⟨_, by unfold get_precursor_values; rw [hi]⟩
    | some r =>
      obtain ⟨p, hp, hnone⟩ := hmiss
      rcases List.mem_cons.mp hp with rfl | hmem
      · rw [hi] at hnone
        cases hnone
      · obtain ⟨e, he⟩ := ih ⟨p, hmem, hnone⟩
        refine ⟨e, ?_⟩
        unfold get_precursor_values
        rw [hi, he]

/-- Witness for C2 at the incomplete-map fixture. -/
theorem get_precursor_values_fail_fast_witness :
    (∃ psm ∈ psmsTest, infoIncomplete psm.run psm.spectrum_id = none) ∧
    ((∃ e, get_precursor_values infoIncomplete psmsTest = .error e) ∧
      get_precursor_values infoIncomplete psmsTest =
        .error (.missingSpectrumId "spectrum2" "run1")) :=
  ⟨⟨⟨"run1", "spectrum2", none, none, none⟩, by decide, rfl⟩,
    get_precursor_values_fail_fast infoIncomplete psmsTest
      ⟨⟨"run1", "spectrum2", none, none, none⟩, by decide, rfl⟩⟩

/-- Claim C1: after a needed, successful extraction, if every extracted
ion-mobility value equals the sentinel `0`, the returned set excludes
`ion_mobility` and every PSM's `ion_mobility` becomes null; if at least one
value is non-sentinel, the extracted values are kept on the PSMs (written
positionally) and `ion_mobility` is included. -/
theorem add_precursor_values_im_sentinel (info : String → String → Option PrecursorRecord)
    (psms : List PSM) (required : Finset MSDataType) (path : String)
    (mzs rts ims : List ℚ)
    (hreq : ¬ required ⊆ already_available psms)
    (hext : get_precursor_values info psms = .ok (mzs, rts, ims)) :
    (ims.all (fun x => decide (x = 0)) = true →
      ∃ out, add_precursor_values info psms required (some path) = .ok out ∧
        MSDataType.ion_mobility ∉ out.2 ∧ ∀ p ∈ out.1, p.ion_mobility = none) ∧
    (ims.all (fun x => decide (x = 0)) = false →
      ∃ out, add_precursor_values info psms required (some path) = .ok out ∧
        MSDataType.ion_mobility ∈ out.2 ∧ out.1 = apply_values psms mzs rts ims ∧
        out.1.map (fun p => p.ion_mobility) = ims.map some) := by
  have hstep : add_precursor_values info psms required (some path) =
      if ims.all (fun x => decide (x = 0)) then
        .ok ((apply_values psms mzs rts ims).map (fun p => { p with ion_mobility := none }),
          {MSDataType.retention_time, MSDataType.precursor_mz} ∪ {MSDataType.ms2_spectra})
      else
        .ok (apply_values psms mzs rts ims,
          {MSDataType.retention_time, MSDataType.precursor_mz, MSDataType.ion_mobility} ∪
            {MSDataType.ms2_spectra}) := by
    unfold add_precursor_values
    rw [if_neg hreq]
    dsimp only
    rw [hext]
    rfl
  constructor
  · intro hall
    rw [hstep, if_pos hall]
    refine ⟨((apply_values psms mzs rts ims).map (fun p => { p with ion_mobility := none }),
      {MSDataType.retention_time, MSDataType.precursor_mz} ∪ {MSDataType.ms2_spectra}),
      rfl,
      (by decide :
        MSDataType.ion_mobility ∉
          ({MSDataType.retention_time, MSDataType.precursor_mz} ∪
            {MSDataType.ms2_spectra} : Finset MSDataType)),
      ?_⟩
    intro p hp
    simp only [List.mem_map] at hp
    obtain ⟨q, -, rfl⟩ := hp
    rfl
  · intro hall
    rw [hstep, if_neg (by simp [hall])]
    obtain ⟨l1, l2, l3⟩ := get_precursor_values_lengths info psms mzs rts ims hext
    exact ⟨(apply_values psms mzs rts ims,
      {MSDataType.retention_time, MSDataType.precursor_mz, MSDataType.ion_mobility} ∪
        {MSDataType.ms2_spectra}),
      rfl,
      (by decide :
        MSDataType.ion_mobility ∈
          ({MSDataType.retention_time, MSDataType.precursor_mz, MSDataType.ion_mobility} ∪
            {MSDataType.ms2_spectra} : Finset MSDataType)),
      rfl, apply_values_ion_mobility psms mzs rts ims l1 l2 l3⟩

/-- The required set of the test fixture: all three precursor categories. -/
def reqAll : Finset MSDataType :=
  {MSDataType.retention_time, MSDataType.ion_mobility, MSDataType.precursor_mz}

/-- A precursor map whose ion-mobility values are all the `0` sentinel. -/
def infoZeroIm : String → String → Option PrecursorRecord :=
  fun _ sid =>
    if sid == "spectrum1" then some ⟨529, 10, 0⟩
    else if sid == "spectrum2" then some ⟨651, 12, 0⟩ else none

/-- Witness for C1 at the all-sentinel fixture. -/
theorem add_precursor_values_im_sentinel_witness :
    (¬ reqAll ⊆ already_available psmsTest ∧
      get_precursor_values infoZeroIm psmsTest =
        .ok ([529, 651], [10, 12], [0, 0])) ∧
    (([(0 : ℚ), 0].all (fun x => decide (x = 0)) = true →
      ∃ out, add_precursor_values infoZeroIm psmsTest reqAll (some "test_data") = .ok out ∧
        MSDataType.ion_mobility ∉ out.2 ∧ ∀ p ∈ out.1, p.ion_mobility = none) ∧
    ([(0 : ℚ), 0].all (fun x => decide (x = 0)) = false →
      ∃ out, add_precursor_values infoZeroIm psmsTest reqAll (some "test_data") = .ok out ∧
        MSDataType.ion_mobility ∈ out.2 ∧
        out.1 = apply_values psmsTest [529, 651] [10, 12] [0, 0] ∧
        out.1.map (fun p => p.ion_mobility) = [(0 : ℚ), 0].map some)) :=
  ⟨⟨by decide, rfl⟩,
    add_precursor_values_im_sentinel infoZeroIm psmsTest reqAll "test_data"
      [529, 651] [10, 12] [0, 0] (by decide) rfl⟩
